import Mathlib

/-!
Shallow embedding of the daily-report-notification webhook core
(src/geocode.py, src/weather.py, src/state_store.py, src/tz.py,
src/webhook_app.py, src/line_client.py).

Modelling conventions:
* Machine floats carrying coordinates, offsets and monotonic timestamps are
  modelled as `ℚ`; wall-clock timestamps (ISO strings in the code) as `ℤ`
  seconds since an epoch; calendar dates as `ℤ` day ordinals.
* Upstream HTTP attempts are an oracle `ℕ → Except String α`: attempt `k`
  either yields the parsed JSON payload or raises, `String` being `str(e)`.
* An absent dictionary key is `Option.none`; `d.get(k, v)` is `Option.getD`.
-/

namespace DailyReport

/-! ## Shared retry helper — `fetch_json_with_retry` (src/weather.py:62-77) -/

/-- Does the pattern begin at the head of the list? -/
def beginsWith : List Char → List Char → Bool
  | _, [] => true
  | [], _ :: _ => false
  | c :: cs, p :: ps => c = p && beginsWith cs ps

/-- Does the pattern occur contiguously anywhere in the list? -/
def containsSeq (s pat : List Char) : Bool :=
  match s with
  | [] => beginsWith [] pat
  | _ :: cs => beginsWith s pat || containsSeq cs pat

/-- Does `"429" in str(e)` hold — does `"429"` occur as a substring of the
error text? -/
def has429 (s : String) : Bool := containsSeq s.data ['4', '2', '9']

/-- The sleep performed after a failed attempt: `wait = backoff_sec ** (attempt - 1)`,
floored at 60 seconds when the error text contains `"429"`. -/
def retryWait (backoff_sec : ℚ) (attempt : ℕ) (errText : String) : ℚ :=
  let wait := backoff_sec ^ (attempt - 1)
  if has429 errText then max wait 60 else wait

/-- The retry loop of `fetch_json_with_retry`, with `fuel` remaining attempts,
`attempt` the 1-based index of the next attempt and `lastErr` the last
exception text.  Returns the final outcome together with the list of sleeps
performed (one after every failed attempt, the last included). -/
def retryFrom (oracle : ℕ → Except String α) (backoff_sec : ℚ) (lastErr : String) :
    ℕ → ℕ → Except String α × List ℚ
  | 0, _ => (.error lastErr, [])
  | fuel + 1, attempt =>
    match oracle attempt with
    | .ok v => (.ok v, [])
    | .error e =>
      let rest := retryFrom oracle backoff_sec e fuel (attempt + 1)
      (rest.1, retryWait backoff_sec attempt e :: rest.2)

/-- `fetch_json_with_retry(url, timeout, retries, backoff_sec)`: attempts
`1, …, retries`; on success returns the payload, on exhaustion raises the last
observed error.  (`lastErr` starts as Python's `None`; it is only raised when
`retries = 0`, which no call site uses.) -/
def fetch_json_with_retry (oracle : ℕ → Except String α) (retries : ℕ)
    (backoff_sec : ℚ) : Except String α × List ℚ :=
  retryFrom oracle backoff_sec "" retries 1

/-- Error text of an attempt outcome (`""` for a success). -/
def errTextOf : Except String α → String
  | .error e => e
  | .ok _ => ""

/-! ## Geocoding — src/geocode.py -/

/-- One entry of the upstream geocoding `results` array; every field may be
absent from the JSON object. -/
structure GeoResult where
  name : Option String
  latitude : Option ℚ
  longitude : Option ℚ
  timezone : Option String
  country : Option String
  country_code : Option String
  admin1 : Option String
deriving Repr, DecidableEq

/-- Parsed body of the geocoding response: `data.get("results")` may be
absent (or `null`). -/
structure GeoResponse where
  results : Option (List GeoResult)
deriving Repr, DecidableEq

/-- The normalized candidate dict built by `search_place` for each result. -/
structure GeoCandidate where
  name : String
  latitude : ℚ
  longitude : ℚ
  timezone : String
  country : String
  country_code : String
  admin1 : String
deriving Repr, DecidableEq

/-- The dict returned by `resolve_place`. -/
structure ResolvedPlace where
  name : String
  lat : ℚ
  lon : ℚ
  timezone : String
  display_name : String
deriving Repr, DecidableEq

/-- Python `str.strip()` on a list of characters: drop whitespace from both
ends. -/
def stripChars (s : List Char) : List Char :=
  (((s.dropWhile Char.isWhitespace).reverse).dropWhile Char.isWhitespace).reverse

/-- The candidate dict built for one upstream result, with the defaults of
`search_place`: `r.get("name", "")`, `float(r.get("latitude", 0))`,
`r.get("timezone", "UTC")`, etc. -/
def normalizeResult (r : GeoResult) : GeoCandidate where
  name := r.name.getD ""
  latitude := r.latitude.getD 0
  longitude := r.longitude.getD 0
  timezone := r.timezone.getD "UTC"
  country := r.country.getD ""
  country_code := r.country_code.getD ""
  admin1 := r.admin1.getD ""

/-- `retries=2` at the geocoding call site `fetch_json_with_retry(url, timeout=10, retries=2)`. -/
def GEO_RETRIES : ℕ := 2

/-- `backoff_sec` default of `fetch_json_with_retry`, used by the geocoding call. -/
def GEO_BACKOFF : ℚ := 3 / 2

/-- `search_place(query, count, language)`: strip the query, reject when
shorter than 2 characters, otherwise fetch and normalize; any fetch failure
is swallowed into an empty candidate list.  The second component records
whether the upstream call was issued.  (`count` and `language` only shape the
request URL: `count` is clamped to `[1,100]` in the query string.) -/
def search_place (query : List Char) (oracle : ℕ → Except String GeoResponse)
    (count : ℕ := 5) (language : String := "ja") :
    List GeoCandidate × Bool :=
  let q := stripChars query
  if q.length < 2 then ([], false)
  else
    match (fetch_json_with_retry oracle GEO_RETRIES GEO_BACKOFF).1 with
    | .error _ => ([], true)
    | .ok data =>
      let results := data.results.getD []
      (results.map normalizeResult, true)

/-- The `display_name` built by `resolve_place`: name, then `admin1` when
non-empty and distinct from the name, then `country` when non-empty,
comma-joined. -/
def displayNameOf (c : GeoCandidate) : String :=
  let parts := [c.name]
    ++ (if c.admin1 ≠ "" ∧ c.admin1 ≠ c.name then [c.admin1] else [])
    ++ (if c.country ≠ "" then [c.country] else [])
  String.intercalate ", " parts

/-- The resolved-place dict `resolve_place` builds from the first candidate. -/
def mkResolved (c : GeoCandidate) : ResolvedPlace where
  name := c.name
  lat := c.latitude
  lon := c.longitude
  timezone := c.timezone
  display_name := displayNameOf c

/-- `resolve_place(query, language)`: first candidate of
`search_place(query, count=1)` or `None`.  Second component again records
whether a network call was issued. -/
def resolve_place (query : List Char) (oracle : ℕ → Except String GeoResponse)
    (language : String := "ja") : Option ResolvedPlace × Bool :=
  match search_place query oracle 1 language with
  | ([], called) => (none, called)
  | (c :: _, called) => (some (mkResolved c), called)

/-! ## Conversation state store — src/state_store.py -/

/-- `STATE_TIMEOUT_SECONDS = 600`. -/
def STATE_TIMEOUT_SECONDS : ℤ := 600

/-- The per-user state dict.  Absent dict keys are `none`; the code sets
`from_place`/`to_place`/`location` to `None` explicitly, which it never
distinguishes from a missing key. -/
structure ConvState where
  mode : Option String
  step : Option String
  from_place : Option ResolvedPlace
  to_place : Option ResolvedPlace
  location : Option ResolvedPlace
  created_at : Option ℤ
  updated_at : Option ℤ
deriving Repr, DecidableEq

/-- The empty dict `{}`. -/
def ConvState.empty : ConvState := ⟨none, none, none, none, none, none, none⟩

/-- The in-memory store: `self._store` as a partial map, plus `ttl_hours`
(default 24 at the global instance `state_store = StateStore()`). -/
structure StateStore where
  store : String → Option ConvState
  ttl_hours : ℤ

/-- `del self._store[user_id]`. -/
def StateStore.erase (ss : StateStore) (uid : String) : StateStore :=
  { ss with store := fun u => if u = uid then none else ss.store u }

/-- `self._store[user_id] = state`. -/
def StateStore.insert (ss : StateStore) (uid : String) (st : ConvState) : StateStore :=
  { ss with store := fun u => if u = uid then some st else ss.store u }

/-- `_is_expired`: `True` when `created_at` is missing, else whether `now`
is strictly past `created_at + ttl_hours` hours. -/
def is_expired (ss : StateStore) (now : ℤ) (st : ConvState) : Bool :=
  match st.created_at with
  | none => true
  | some c => decide (now > c + ss.ttl_hours * 3600)

/-- `_is_timed_out`: `True` when `updated_at` is missing, else whether at
least `STATE_TIMEOUT_SECONDS` have elapsed since `updated_at`. -/
def is_timed_out (now : ℤ) (st : ConvState) : Bool :=
  match st.updated_at with
  | none => true
  | some u => decide (now - u ≥ STATE_TIMEOUT_SECONDS)

/-- `get_state`: return the stored state, lazily deleting it (and returning
`None`) when it is timed out or expired.  The store after the call is the
second component. -/
def get_state (ss : StateStore) (now : ℤ) (uid : String) :
    Option ConvState × StateStore :=
  match ss.store uid with
  | none => (none, ss)
  | some st =>
    if is_timed_out now st then (none, ss.erase uid)
    else if is_expired ss now st then (none, ss.erase uid)
    else (some st, ss)

/-- `set_state`: stamp both timestamps with `now` and store. -/
def set_state (ss : StateStore) (now : ℤ) (uid : String) (st : ConvState) :
    StateStore :=
  ss.insert uid { st with created_at := some now, updated_at := some now }

/-- `update_state`: read through `get_state` (or start from `{}`), apply the
keyword updates `upd`, refresh `updated_at`, backfill `created_at` when
missing, store. -/
def update_state (ss : StateStore) (now : ℤ) (uid : String)
    (upd : ConvState → ConvState) : StateStore :=
  let got := get_state ss now uid
  let current := upd (got.1.getD ConvState.empty)
  let current := { current with updated_at := some now }
  let current :=
    if current.created_at = none then { current with created_at := some now }
    else current
  got.2.insert uid current

/-- `clear_state`: delete the entry when present. -/
def clear_state (ss : StateStore) (uid : String) : StateStore :=
  if (ss.store uid).isSome then ss.erase uid else ss

/-! ## Timezone calculator — src/tz.py -/

/-- Python `int()` applied to a real number: truncation toward zero. -/
def intTowardZero (q : ℚ) : ℤ := if 0 ≤ q then ⌊q⌋ else ⌈q⌉

/-- `calculate_timezone_difference(from_tz, to_tz)`.  Zone resolution and
`utcoffset()` at "now" are external data, passed as oracles: `zoneinfoOffset`
models `ZoneInfo(tz)` + `.utcoffset().total_seconds()` (`none` when `ZoneInfo`
raises), `pytzOffset` the `pytz.timezone` fallback.  The source resolves both
zones inside one `try`, so the `zoneinfo` path is taken only when both
resolve there, the `pytz` path only when both resolve there, and otherwise
the fixed `(0, placeholder)` pair is returned. -/
def calculate_timezone_difference (zoneinfoOffset pytzOffset : String → Option ℚ)
    (from_tz to_tz : String) : ℤ × String :=
  let offsets :=
    match zoneinfoOffset from_tz, zoneinfoOffset to_tz with
    | some a, some b => some (a, b)
    | _, _ =>
      match pytzOffset from_tz, pytzOffset to_tz with
      | some a, some b => some (a, b)
      | _, _ => none
  match offsets with
  | none => (0, "タイムゾーンが取得できませんでした")
  | some (offFrom, offTo) =>
    let hours_diff := intTowardZero ((offTo - offFrom) / 3600)
    let diff_str :=
      if hours_diff = 0 then "時差なし"
      else if hours_diff > 0 then "+" ++ toString hours_diff ++ "時間"
      else toString hours_diff ++ "時間"
    (hours_diff, diff_str)

/-- Local civil time in a zone at "now", as observed through the external
zone database: the fields `format_datetime_ja` reads from the localized
`datetime`. -/
structure CivilTime where
  year : ℤ
  month : ℤ
  day : ℤ
  weekday : ℕ
  hour : ℤ
  minute : ℤ
deriving Repr, DecidableEq

/-- `WEEKDAY_JA` of src/tz.py (Monday = 0). -/
def WEEKDAY_JA : List String := ["月", "火", "水", "木", "金", "土", "日"]

/-- Zero-padded two-digit rendering, `f"{n:02d}"` for `0 ≤ n < 100`. -/
def two (n : ℤ) : String :=
  if n < 10 then "0" ++ toString n else toString n

/-- `format_datetime_ja(tz_str)`: render the zone's current civil time, with
the `ZoneInfo`-then-`pytz` resolution fallback; both failing yields `"—"`. -/
def format_datetime_ja (zCivil pCivil : String → Option CivilTime)
    (tz_str : String) : String :=
  match (match zCivil tz_str with
         | some c => some c
         | none => pCivil tz_str) with
  | none => "—"
  | some c =>
    toString c.year ++ "年" ++ toString c.month ++ "月" ++ toString c.day ++ "日 ("
      ++ WEEKDAY_JA.getD c.weekday "" ++ ") " ++ two c.hour ++ ":" ++ two c.minute

/-! ## Weather provider — src/weather.py -/

/-- `WEATHERCODE_JA` lookup table. -/
def WEATHERCODE_JA (code : ℤ) : Option String :=
  if code = 0 then some "快晴"
  else if code = 1 then some "晴れ"
  else if code = 2 then some "一部くもり"
  else if code = 3 then some "くもり"
  else if code = 24 then some "くもり"
  else if code = 45 then some "霧"
  else if code = 48 then some "着氷性の霧"
  else if code = 51 then some "霧雨（弱）"
  else if code = 53 then some "霧雨（中）"
  else if code = 55 then some "霧雨（強）"
  else if code = 29 then some "霧雨（強）"
  else if code = 61 then some "雨（弱）"
  else if code = 63 then some "雨（中）"
  else if code = 65 then some "雨（強）"
  else if code = 32 then some "雨（強）"
  else if code = 71 then some "雪（弱）"
  else if code = 73 then some "雪（中）"
  else if code = 75 then some "雪（強）"
  else if code = 35 then some "雪（強）"
  else if code = 80 then some "にわか雨（弱）"
  else if code = 81 then some "にわか雨（中）"
  else if code = 82 then some "にわか雨（強）"
  else if code = 38 then some "にわか雨（強）"
  else none

/-- `weather_icon_from_code(code)`. -/
def weather_icon_from_code (code : ℤ) : String :=
  if code = 0 then "☀️"
  else if code = 1 ∨ code = 2 then "🌤️"
  else if code = 3 then "☁️"
  else if code = 45 ∨ code = 48 then "🌫️"
  else if 51 ≤ code ∧ code ≤ 57 then "🌦️"
  else if (61 ≤ code ∧ code ≤ 67) ∨ (80 ≤ code ∧ code ≤ 82) then "☂️"
  else if (71 ≤ code ∧ code ≤ 77) ∨ (85 ≤ code ∧ code ≤ 86) then "❄️"
  else if code = 95 ∨ code = 96 ∨ code = 99 then "⛈️"
  else "🌡️"

/-- `MORNING_CUTOFF_HOUR = 8`. -/
def MORNING_CUTOFF_HOUR : ℤ := 8

/-- `WEATHER_CACHE_TTL_SECONDS = 300`. -/
def WEATHER_CACHE_TTL_SECONDS : ℚ := 300

/-- `retries=3` at the weather call site of `fetch_json_with_retry`. -/
def WEATHER_RETRIES : ℕ := 3

/-- `backoff_sec=2.0` at the weather call site. -/
def WEATHER_BACKOFF : ℚ := 2

/-- `_target_date_and_header(tz_str)`: from the zone's local "now" (date
ordinal and hour), today with the `"翌日（本日）"` header when
`0 <= now.hour < MORNING_CUTOFF_HOUR`, else tomorrow with `"翌日"`. -/
def target_date_and_header (localDate localHour : ℤ) : ℤ × String :=
  if 0 ≤ localHour ∧ localHour < MORNING_CUTOFF_HOUR then (localDate, "翌日（本日）")
  else (localDate + 1, "翌日")

/-- One upstream hourly timestamp, parsed: the code receives local-time ISO
strings `"YYYY-MM-DDTHH:MM"`; on such well-formed minute-resolution strings
the source's exact-equality, `startswith(date)` and `endswith(f"{h:02d}:00")`
tests are component tests on this record. -/
structure LDT where
  date : ℤ
  hour : ℤ
  minute : ℤ
deriving Repr, DecidableEq

/-- Parsed `hourly` object of the forecast response: parallel arrays.
`pops` is `hourly.get("precipitation_probability", [])`, a list whose
entries may be `null`. -/
structure HourlyData where
  times : List LDT
  temps : List ℚ
  pops : List (Option ℤ)
  codes : List ℤ
deriving Repr, DecidableEq

/-- One forecast slot dict.  `dt` models the `datetime` field (the localized
timestamp the code re-renders with `isoformat()`). -/
structure ForecastSlot where
  time : String
  dt : LDT
  temp : ℚ
  precip_prob : Option ℤ
  weather : String
  code : ℤ
  icon : String
deriving Repr, DecidableEq

/-- Index lookup for one target hour: exact `times.index(f"{date}T{h:02d}:00")`,
then the fallback scan for a timestamp on the target date ending in
`f"{h:02d}:00"`. -/
def slotIndex (times : List LDT) (target h : ℤ) : Option ℕ :=
  match times.findIdx? (· = (⟨target, h, 0⟩ : LDT)) with
  | some i => some i
  | none => times.findIdx? (fun t => t.date = target ∧ t.hour = h ∧ t.minute = 0)

/-- The slot built at index `idx`; out-of-range access to a parallel array
raises Python's `IndexError` (`"list index out of range"`). -/
def buildSlot (data : HourlyData) (idx : ℕ) : Except String ForecastSlot :=
  match data.codes.get? idx, data.temps.get? idx, data.times.get? idx with
  | some code, some temp, some t =>
    .ok { time := two t.hour ++ ":" ++ two t.minute
          dt := t
          temp := temp
          precip_prob :=
            match data.pops.get? idx with
            | some (some v) => some v
            | _ => none
          weather := (WEATHERCODE_JA code).getD ("天気コード:" ++ toString code)
          code := code
          icon := weather_icon_from_code code }
  | _, _, _ => .error "list index out of range"

/-- The slot loop over the target hours `(9, 12, 15, 18, 21)`: a missing
timestamp silently omits the slot. -/
def buildForecasts (data : HourlyData) (target : ℤ) :
    List ℤ → Except String (List ForecastSlot)
  | [] => .ok []
  | h :: hs =>
    match slotIndex data.times target h with
    | none => buildForecasts data target hs
    | some idx => do
      let s ← buildSlot data idx
      let rest ← buildForecasts data target hs
      pure (s :: rest)

/-- Proleptic-Gregorian conversion of a day ordinal (day 0 = 1970-01-01) to
`(year, month, day)`, matching Python's `date` fields. -/
def civilFromDays (z0 : ℤ) : ℤ × ℤ × ℤ :=
  let z := z0 + 719468
  let era := (if 0 ≤ z then z else z - 146096).tdiv 146097
  let doe := z - era * 146097
  let yoe := (doe - doe.tdiv 1460 + doe.tdiv 36524 - doe.tdiv 146096).tdiv 365
  let y := yoe + era * 400
  let doy := doe - (365 * yoe + yoe.tdiv 4 - yoe.tdiv 100)
  let mp := (5 * doy + 2).tdiv 153
  let d := doy - (153 * mp + 2).tdiv 5 + 1
  let m := mp + (if mp < 10 then 3 else -9)
  (if m ≤ 2 then y + 1 else y, m, d)

/-- `WEEKDAY_JA` of src/weather.py, indexed by `date.weekday()` (Monday = 0);
1970-01-01 was a Thursday. -/
def weekdayOf (d : ℤ) : ℕ := ((d + 3) % 7).toNat

/-- The `date_label`
`f"{y}年{m}月{day}日({WEEKDAY_JA[target_date.weekday()]})"`. -/
def dateLabelOf (d : ℤ) : String :=
  let c := civilFromDays d
  toString c.1 ++ "年" ++ toString c.2.1 ++ "月" ++ toString c.2.2 ++ "日("
    ++ WEEKDAY_JA.getD (weekdayOf d) "" ++ ")"

/-- A weather-cache key: `(round(lat, 4), round(lon, 4), timezone_str,
target_date.isoformat())` — `isoformat` is injective, so the date ordinal
stands for the ISO string. -/
structure CacheKey where
  lat4 : ℚ
  lon4 : ℚ
  tz : String
  date : ℤ
deriving Repr, DecidableEq

/-- The cached triple `(forecasts, date_label, header_label)`. -/
structure WeatherResult where
  forecasts : List ForecastSlot
  date_label : String
  header_label : String
deriving Repr, DecidableEq

/-- The module-level dicts `_weather_cache` and `_weather_cache_time`. -/
structure WeatherCache where
  cache : CacheKey → Option WeatherResult
  timeAt : CacheKey → Option ℚ

/-- Round-half-to-even to an integer, Python's `round` tie behavior. -/
def roundHalfEven (q : ℚ) : ℤ :=
  let f := ⌊q⌋
  let r := q - f
  if r < 1 / 2 then f
  else if 1 / 2 < r then f + 1
  else if f % 2 = 0 then f else f + 1

/-- Python `round(x, 4)` on the exact value. -/
def round4 (x : ℚ) : ℚ := (roundHalfEven (x * 10000) : ℚ) / 10000

/-- The miss path of `get_tomorrow_weather_9_to_21`: fetch with retries,
build the slots, label the date, store the triple under `cache_key` stamped
with `now_ts`, and report that an upstream call was made. -/
def weatherFetchPath (cache_key : CacheKey) (target_date : ℤ)
    (header_label : String) (now_ts : ℚ) (wc : WeatherCache)
    (oracle : ℕ → Except String HourlyData) :
    Except String (WeatherResult × WeatherCache × Bool) := do
  let data ← (fetch_json_with_retry oracle WEATHER_RETRIES WEATHER_BACKOFF).1
  let forecasts ← buildForecasts data target_date [9, 12, 15, 18, 21]
  let result : WeatherResult := ⟨forecasts, dateLabelOf target_date, header_label⟩
  pure (result,
    { cache := fun k => if k = cache_key then some result else wc.cache k
      timeAt := fun k => if k = cache_key then some now_ts else wc.timeAt k },
    true)

/-- `get_tomorrow_weather_9_to_21(lat, lon, timezone_str)`.  `localDate` and
`localHour` are the zone's local "now" (the input of
`_target_date_and_header`), `now_ts` is `time.monotonic()`, `wc` the global
cache pair, `oracle` the upstream attempts.  Returns the triple, the cache
after the call, and whether an upstream call was issued. -/
def get_tomorrow_weather_9_to_21 (lat lon : ℚ) (timezone_str : String)
    (localDate localHour : ℤ) (now_ts : ℚ) (wc : WeatherCache)
    (oracle : ℕ → Except String HourlyData) :
    Except String (WeatherResult × WeatherCache × Bool) :=
  let th := target_date_and_header localDate localHour
  let cache_key : CacheKey := ⟨round4 lat, round4 lon, timezone_str, th.1⟩
  match wc.cache cache_key with
  | some cached =>
    if now_ts - (wc.timeAt cache_key).getD 0 < WEATHER_CACHE_TTL_SECONDS then
      .ok (cached, wc, false)
    else weatherFetchPath cache_key th.1 th.2 now_ts wc oracle
  | none => weatherFetchPath cache_key th.1 th.2 now_ts wc oracle

/-! ## Outbound messages — src/line_client.py -/

/-- An outbound message dict: `build_text_message` or
`build_quick_reply_message` (whose quick-reply items are the postback-action
triples `(label, data, displayText)`). -/
inductive Message where
  | text (s : String)
  | quickReply (s : String) (items : List (String × String × String))
deriving Repr, DecidableEq

/-- `build_postback_action(label, data, display_text)`; `display_text or
label` falls back to the label when `display_text` is `None` or empty. -/
def build_postback_action (label data : String)
    (display_text : Option String := none) : String × String × String :=
  (label, data,
    match display_text with
    | some s => if s = "" then label else s
    | none => label)

/-! ## Dialogue controller — src/webhook_app.py -/

/-- Numeric rendering `f"{q:.{prec}f}"`: fixed-point with `prec` fractional
digits, half-to-even on the exact value (the code formats binary floats; the
claims do not depend on representation error). -/
def fmtFixed (prec : ℕ) (q : ℚ) : String :=
  let scaled := roundHalfEven (q * (10 : ℚ) ^ prec)
  let mag := scaled.natAbs
  let ip := mag / 10 ^ prec
  let fp := mag % 10 ^ prec
  let fs := toString fp
  let fs := String.mk (List.replicate (prec - fs.length) '0') ++ fs
  (if scaled < 0 then "-" else "") ++ toString ip ++ "." ++ fs

/-- External inputs of one inbound-event handling: wall clock, monotonic
clock, the weather zone's local "now", and the upstream/zone oracles. -/
structure Env where
  now : ℤ
  now_ts : ℚ
  localDate : ℤ
  localHour : ℤ
  geo : ℕ → Except String GeoResponse
  hourly : ℕ → Except String HourlyData
  zOffset : String → Option ℚ
  pOffset : String → Option ℚ
  zCivil : String → Option CivilTime
  pCivil : String → Option CivilTime

/-- Observable outcome of handling one inbound event: the message lists
passed to `line_client.send_reply` (in order), the state store and weather
cache afterwards, and the number of handler-level state-store mutation calls
(`set_state`/`update_state`/`clear_state`; the lazy expiry deletion inside
`get_state` is part of reading). -/
structure HandlerResult where
  replies : List (List Message)
  store : StateStore
  wcache : WeatherCache
  mutations : ℕ

/-- `handle_menu_command(user_id, reply_token)`: one quick-reply menu, then
clear the state. -/
def handle_menu_command (uid : String) (ss : StateStore) (wc : WeatherCache) :
    HandlerResult :=
  let quick_reply_items :=
    [build_postback_action "時差計算" "mode=tz" (some "時差計算"),
     build_postback_action "天気" "mode=weather" (some "天気")]
  let message := Message.quickReply "何をお手伝いしましょうか？" quick_reply_items
  { replies := [[message]], store := clear_state ss uid, wcache := wc,
    mutations := 1 }

/-- `handle_postback(user_id, data, reply_token)`: the two recognized
`mode=` payloads seed a fresh state and prompt; anything else falls through
with no reply and no mutation. -/
def handle_postback (uid data : String) (env : Env) (ss : StateStore)
    (wc : WeatherCache) : HandlerResult :=
  if data = "mode=tz" then
    { replies := [[Message.text "あなたの地点の地名や郵便番号を入力してください（例：横浜、Berlin、100-0001）"]]
      store := set_state ss env.now uid
        { ConvState.empty with mode := some "tz", step := some "from",
                               from_place := none, to_place := none }
      wcache := wc, mutations := 1 }
  else if data = "mode=weather" then
    { replies := [[Message.text "地名や郵便番号を入力するか、位置情報を送ってください（例：札幌、Osaka、NYC）"]]
      store := set_state ss env.now uid
        { ConvState.empty with mode := some "weather", step := some "location",
                               location := none }
      wcache := wc, mutations := 1 }
  else { replies := [], store := ss, wcache := wc, mutations := 0 }

/-- `text.strip().lower()`. -/
def normalizeText (text : List Char) : String :=
  String.mk ((stripChars text).map Char.toLower)

/-- The tz-flow re-prompt for an unresolved place input. -/
def placeNotFoundTzText (text : List Char) : String :=
  "「" ++ String.mk text ++ "」に該当する場所が見つかりませんでした。\n"
    ++ "2文字以上の地名や郵便番号で入力してください。"

/-- The weather-flow re-prompt for an unresolved place input. -/
def placeNotFoundWeatherText (text : List Char) : String :=
  "「" ++ String.mk text ++ "」に該当する場所が見つかりませんでした。\n"
    ++ "2文字以上の地名や郵便番号を入力するか、位置情報を送ってください。"

/-- Confirmation + next prompt after resolving the origin place. -/
def fromConfirmedText (place : ResolvedPlace) : String :=
  "あなたの地点：" ++ place.display_name ++ "\n\n"
    ++ "時差を知りたい都市の地名や郵便番号を入力してください。"

/-- The formatted timezone-difference result block. -/
def tzResultText (from_place to_place : ResolvedPlace)
    (time_yours time_dest diff_str : String) : String :=
  "【時差計算結果】\n\n"
    ++ "あなたの地点：" ++ from_place.display_name ++ " (" ++ from_place.timezone ++ ")\n"
    ++ time_yours ++ "\n\n"
    ++ "目的地：" ++ to_place.display_name ++ " (" ++ to_place.timezone ++ ")\n"
    ++ time_dest ++ "\n\n"
    ++ "時差：" ++ diff_str ++ "\n\n"
    ++ "もう一度計算する場合は「メニュー」と入力してください。"

/-- One forecast line:
`f"{time} {icon} {weather} 気温: {temp:.1f}℃ / 降水確率: {pop_str}"`. -/
def forecastLine (f : ForecastSlot) : String :=
  let pop_str := match f.precip_prob with
    | some v => toString v ++ "%"
    | none => "不明"
  f.time ++ " " ++ f.icon ++ " " ++ f.weather ++ " 気温: " ++ fmtFixed 1 f.temp
    ++ "℃ / 降水確率: " ++ pop_str

/-- The weather result text of the text path. -/
def weatherResultText (wr : WeatherResult) (display_name : String) : String :=
  let lines := ["こちら" ++ wr.header_label ++ "の天気です。",
                "【" ++ wr.date_label ++ "｜" ++ display_name ++ "の天気】"]
    ++ wr.forecasts.map forecastLine
  String.intercalate "\n" lines
    ++ "\n\nもう一度検索する場合は「メニュー」と入力してください。"

/-- The weather result text of the location path. -/
def locationWeatherText (wr : WeatherResult) (latitude longitude : ℚ) : String :=
  let lines := ["こちら" ++ wr.header_label ++ "の天気です。",
                "【" ++ wr.date_label ++ "｜位置情報の天気】",
                "緯度: " ++ fmtFixed 4 latitude ++ ", 経度: " ++ fmtFixed 4 longitude]
    ++ wr.forecasts.map forecastLine
  String.intercalate "\n" lines
    ++ "\n\nもう一度検索する場合は「メニュー」と入力してください。"

/-- The weather failure reply `f"天気情報の取得に失敗しました: {str(e)}"`. -/
def weatherFailText (e : String) : String :=
  "天気情報の取得に失敗しました: " ++ e

/-- `handle_text_message(user_id, text, reply_token)`.  `Except.error ()`
models an uncaught Python exception escaping the handler (the unguarded
`from_place["timezone"]` subscription when `from_place` is `None`). -/
def handle_text_message (uid : String) (text : List Char) (env : Env)
    (ss : StateStore) (wc : WeatherCache) : Except Unit HandlerResult :=
  let text_lower := normalizeText text
  if text_lower = "メニュー" ∨ text_lower = "menu" ∨ text_lower = "help"
      ∨ text_lower = "ヘルプ" then
    .ok (handle_menu_command uid ss wc)
  else
    match get_state ss env.now uid with
    | (none, ss1) => .ok (handle_menu_command uid ss1 wc)
    | (some state, ss1) =>
      if state.mode = some "tz" then
        if state.step = some "from" then
          match (resolve_place text env.geo).1 with
          | none =>
            .ok { replies := [[Message.text (placeNotFoundTzText text)]],
                  store := ss1, wcache := wc, mutations := 0 }
          | some place =>
            .ok { replies := [[Message.text (fromConfirmedText place)]],
                  store := update_state ss1 env.now uid
                    (fun st => { st with from_place := some place, step := some "to" }),
                  wcache := wc, mutations := 1 }
        else if state.step = some "to" then
          match (resolve_place text env.geo).1 with
          | none =>
            .ok { replies := [[Message.text (placeNotFoundTzText text)]],
                  store := ss1, wcache := wc, mutations := 0 }
          | some place =>
            match state.from_place with
            | none => .error ()
            | some from_place =>
              let to_place := place
              let diff := calculate_timezone_difference env.zOffset env.pOffset
                from_place.timezone to_place.timezone
              let time_yours := format_datetime_ja env.zCivil env.pCivil from_place.timezone
              let time_dest := format_datetime_ja env.zCivil env.pCivil to_place.timezone
              .ok { replies := [[Message.text
                      (tzResultText from_place to_place time_yours time_dest diff.2)]],
                    store := clear_state ss1 uid, wcache := wc, mutations := 1 }
        else .ok { replies := [], store := ss1, wcache := wc, mutations := 0 }
      else if state.mode = some "weather" then
        match (resolve_place text env.geo).1 with
        | none =>
          .ok { replies := [[Message.text (placeNotFoundWeatherText text)]],
                store := ss1, wcache := wc, mutations := 0 }
        | some place =>
          match get_tomorrow_weather_9_to_21 place.lat place.lon place.timezone
              env.localDate env.localHour env.now_ts wc env.hourly with
          | .ok (wr, wc2, _) =>
            .ok { replies := [[Message.text (weatherResultText wr place.display_name)]],
                  store := clear_state ss1 uid, wcache := wc2, mutations := 1 }
          | .error e =>
            .ok { replies := [[Message.text (weatherFailText e)]],
                  store := clear_state ss1 uid, wcache := wc, mutations := 1 }
      else .ok { replies := [], store := ss1, wcache := wc, mutations := 0 }

/-- `handle_location_message(user_id, latitude, longitude, reply_token)`:
outside weather mode show the menu; otherwise fetch weather for the raw
coordinates with the fixed `"Asia/Tokyo"` zone. -/
def handle_location_message (uid : String) (latitude longitude : ℚ) (env : Env)
    (ss : StateStore) (wc : WeatherCache) : HandlerResult :=
  match get_state ss env.now uid with
  | (none, ss1) => handle_menu_command uid ss1 wc
  | (some state, ss1) =>
    if state.mode ≠ some "weather" then handle_menu_command uid ss1 wc
    else
      match get_tomorrow_weather_9_to_21 latitude longitude "Asia/Tokyo"
          env.localDate env.localHour env.now_ts wc env.hourly with
      | .ok (wr, wc2, _) =>
        { replies := [[Message.text (locationWeatherText wr latitude longitude)]],
          store := clear_state ss1 uid, wcache := wc2, mutations := 1 }
      | .error e =>
        { replies := [[Message.text (weatherFailText e)]],
          store := clear_state ss1 uid, wcache := wc, mutations := 1 }

/-! ## Concrete data used by witnesses -/

/-- A stored state created by the weather postback at time 0. -/
def demoWeatherState : ConvState :=
  { ConvState.empty with mode := some "weather", step := some "location",
                         created_at := some 0, updated_at := some 0 }

/-- A stored state in the tz flow awaiting the destination place. -/
def demoTzToState : ConvState :=
  { ConvState.empty with mode := some "tz", step := some "to",
                         from_place := some (mkResolved (normalizeResult
                           ⟨some "Glasgow", some 55, some (-4), some "Europe/London",
                            some "イギリス", some "GB", some "スコットランド"⟩)),
                         created_at := some 0, updated_at := some 0 }

/-- A stale stored state: last updated at time 0. -/
def demoStaleState : ConvState :=
  { ConvState.empty with mode := some "tz", step := some "from",
                         created_at := some 0, updated_at := some 0 }

/-- A one-user store holding `demoStaleState`. -/
def demoStaleStore : StateStore :=
  ⟨fun u => if u = "u1" then some demoStaleState else none, 24⟩

/-- An upstream geocoding response whose single result omits the timezone
and the coordinates. -/
def demoGeoResponse : GeoResponse :=
  ⟨some [⟨some "Atlantis", none, none, none, some "Nowhere", none, none⟩]⟩

/-- A geocoding oracle that succeeds immediately with `demoGeoResponse`. -/
def demoGeoOracle : ℕ → Except String GeoResponse :=
  fun _ => .ok demoGeoResponse

/-- A geocoding oracle that fails on attempts 1 and 2 and would succeed on
attempt 3. -/
def lateGeoOracle : ℕ → Except String GeoResponse :=
  fun n => if 3 ≤ n then .ok ⟨some []⟩ else .error "boom"

/-- A geocoding oracle whose every attempt fails; it agrees with
`lateGeoOracle` on attempts 1 and 2. -/
def allFailGeoOracle : ℕ → Except String GeoResponse :=
  fun _ => .error "boom"

/-- An hourly-weather oracle that fails on attempts 1–3 and would succeed
from attempt 4 on; it agrees with `failingHourlyOracle` on attempts 1–3. -/
def lateHourlyOracle : ℕ → Except String HourlyData :=
  fun n => if 4 ≤ n then .ok ⟨[], [], [], []⟩ else .error "neterr"

/-- An upstream oracle whose every attempt raises a rate-limit error. -/
def ratelimitOracle : ℕ → Except String HourlyData :=
  fun n => .error ("HTTP Error 429: attempt " ++ toString n)

/-- An hourly-weather oracle that succeeds immediately with empty parallel
arrays. -/
def demoHourlyOracle : ℕ → Except String HourlyData :=
  fun _ => .ok ⟨[], [], [], []⟩

/-- An hourly-weather oracle whose every attempt fails. -/
def failingHourlyOracle : ℕ → Except String HourlyData :=
  fun _ => .error "neterr"

/-- The empty weather cache. -/
def demoEmptyWC : WeatherCache := ⟨fun _ => none, fun _ => none⟩

/-- The empty state store. -/
def demoEmptyStore : StateStore := ⟨fun _ => none, 24⟩

/-- The cache key of the witness weather lookup. -/
def demoKey : CacheKey :=
  ⟨round4 35, round4 139, "Asia/Tokyo", (target_date_and_header 19000 9).1⟩

/-- The triple the witness weather lookup computes and caches. -/
def demoWeatherResult : WeatherResult := ⟨[], dateLabelOf 19001, "翌日"⟩

/-- The cache after the witness weather lookup stored its result at
monotonic time 0. -/
def demoWC1 : WeatherCache :=
  ⟨fun k => if k = demoKey then some demoWeatherResult else demoEmptyWC.cache k,
   fun k => if k = demoKey then some 0 else demoEmptyWC.timeAt k⟩

/-- A one-user store holding `demoWeatherState`. -/
def demoWeatherStore : StateStore :=
  ⟨fun u => if u = "u1" then some demoWeatherState else none, 24⟩

/-- A one-user store holding `demoTzToState`. -/
def demoTzStore : StateStore :=
  ⟨fun u => if u = "u1" then some demoTzToState else none, 24⟩

/-- The states the controller itself stores: the two postback seeds and the
tz state advanced by a successful origin resolution.  Only the `mode`,
`step` and `from_place` fields matter. -/
def WFState (st : ConvState) : Prop :=
  (st.mode = some "tz" ∧ st.step = some "from")
  ∨ (st.mode = some "tz" ∧ st.step = some "to" ∧ st.from_place ≠ none)
  ∨ (st.mode = some "weather" ∧ st.step = some "location")

/-- Every stored state is controller-made. -/
def StoreWF (ss : StateStore) : Prop :=
  ∀ u st, ss.store u = some st → WFState st

/-- The place `resolve_place` builds from `demoGeoResponse`: every omitted
upstream field replaced by its default. -/
def demoResolved : ResolvedPlace :=
  mkResolved (normalizeResult
    ⟨some "Atlantis", none, none, none, some "Nowhere", none, none⟩)

/-- A fully concrete environment for witnesses: wall clock 0, weather zone
local now = day 19000, 09:00, geocoding succeeds with `demoGeoResponse`,
weather upstream always fails. -/
def demoEnv : Env :=
  { now := 0, now_ts := 0, localDate := 19000, localHour := 9,
    geo := demoGeoOracle, hourly := failingHourlyOracle,
    zOffset := fun _ => none, pOffset := fun _ => none,
    zCivil := fun _ => none, pCivil := fun _ => none }

/-! # Theorems -/

/-! ## Helper lemmas -/

/-- Truncation toward zero is an odd function. -/
theorem intTowardZero_neg (q : ℚ) : intTowardZero (-q) = -intTowardZero q := by
  unfold intTowardZero
  rcases lt_trichotomy q 0 with h | h | h
  · rw [if_pos (by linarith), if_neg (by linarith), Int.floor_neg]
  · subst h; norm_num
  · rw [if_neg (by linarith), if_pos (by linarith), Int.ceil_neg]

/-- Swapping the operands of the scaled difference negates the truncation. -/
theorem intTowardZero_sub_swap (a b : ℚ) :
    intTowardZero ((a - b) / 3600) = -intTowardZero ((b - a) / 3600) := by
  rw [show (a - b) / 3600 = -((b - a) / 3600) by ring, intTowardZero_neg]

/-- Dropping a whitespace run never lengthens a list. -/
theorem length_dropWhile_le (p : Char → Bool) :
    ∀ s : List Char, (s.dropWhile p).length ≤ s.length := by
  intro s
  induction s with
  | nil => exact le_refl _
  | cons c cs ih =>
    rw [List.dropWhile_cons]
    by_cases h : p c = true
    · simp only [h, if_true]
      exact le_trans ih (Nat.le_succ _)
    · simp [h]

/-- Stripping never lengthens a character list. -/
theorem stripChars_length_le (s : List Char) : (stripChars s).length ≤ s.length := by
  unfold stripChars
  rw [List.length_reverse]
  refine le_trans (length_dropWhile_le _ _) ?_
  rw [List.length_reverse]
  exact length_dropWhile_le _ _

/-- A state handed out by `get_state` is the stored one. -/
theorem get_state_some {ss : StateStore} {now : ℤ} {uid : String} {st : ConvState}
    (h : (get_state ss now uid).1 = some st) : ss.store uid = some st := by
  unfold get_state at h
  cases hs : ss.store uid with
  | none => rw [hs] at h; simp at h
  | some st0 =>
    rw [hs] at h
    by_cases ht : is_timed_out now st0 = true
    · simp [ht] at h
    · by_cases he : is_expired ss now st0 = true
      · simp [ht, he] at h
      · simp [ht, he] at h; rw [h]

/-! ## C9 — target date and header label -/

/-- C9: for every local "now" of the zone, a local hour in `[0, 8)` makes the
target date today's local date with the `"翌日（本日）"` ("today") header,
and any other hour makes it tomorrow's local date with the plain `"翌日"`
header. -/
theorem target_date_today_or_tomorrow (d h : ℤ) :
    (0 ≤ h ∧ h < 8 → target_date_and_header d h = (d, "翌日（本日）"))
    ∧ (¬(0 ≤ h ∧ h < 8) → target_date_and_header d h = (d + 1, "翌日")) := by
  constructor <;> intro hh <;>
    simp [target_date_and_header, MORNING_CUTOFF_HOUR, hh]

/-- Witness for C9: at 03:00 local the target is today with the "today"
header; at 09:00 local it is tomorrow with the plain header. -/
theorem target_date_today_or_tomorrow_witness :
    target_date_and_header 19000 3 = (19000, "翌日（本日）")
    ∧ target_date_and_header 19000 9 = (19001, "翌日") :=
  ⟨(target_date_today_or_tomorrow 19000 3).1 (by norm_num),
   (target_date_today_or_tomorrow 19000 9).2 (by norm_num)⟩

/-! ## C8 — timezone offset antisymmetry -/

/-- C8: for all zone-resolution oracles and all zone identifiers (including
unresolvable ones, which yield 0), the integer-hours component of
`calculate_timezone_difference` is antisymmetric; the truncation toward zero
of the scaled offset difference commutes with swapping the arguments. -/
theorem tz_offset_antisymmetric (z p : String → Option ℚ) (A B : String) :
    (calculate_timezone_difference z p A B).1
      = -(calculate_timezone_difference z p B A).1 := by
  unfold calculate_timezone_difference
  cases hzA : z A <;> cases hzB : z B <;> cases hpA : p A <;> cases hpB : p B <;>
    simp <;> apply intTowardZero_sub_swap

/-! ## C2 — state-store dual expiry on `get` -/

/-- C2: `get_state` returns absent and deletes the entry whenever at least
600 seconds have elapsed since `updated_at` (regardless of `created_at`),
whenever strictly more than `ttl_hours` hours have elapsed since
`created_at` (regardless of recent activity), and whenever either timestamp
is missing. -/
theorem state_get_dual_expiry (ss : StateStore) (now : ℤ) (uid : String)
    (st : ConvState) (hstored : ss.store uid = some st)
    (hexp : st.updated_at = none ∨ st.created_at = none
      ∨ (∃ u, st.updated_at = some u ∧ now - u ≥ STATE_TIMEOUT_SECONDS)
      ∨ (∃ c, st.created_at = some c ∧ now > c + ss.ttl_hours * 3600)) :
    (get_state ss now uid).1 = none
    ∧ ((get_state ss now uid).2).store uid = none := by
  unfold get_state
  rw [hstored]
  by_cases ht : is_timed_out now st = true
  · simp [ht, StateStore.erase]
  · by_cases he : is_expired ss now st = true
    · simp [ht, he, StateStore.erase]
    · exfalso
      rcases hexp with h | h | ⟨u, hu, hge⟩ | ⟨c, hc, hgt⟩
      · exact ht (by simp [is_timed_out, h])
      · exact he (by simp [is_expired, h])
      · exact ht (by simp [is_timed_out, hu]; omega)
      · exact he (by simp [is_expired, hc]; omega)

/-- Witness for C2: a state last updated at time 0 is deleted and reported
absent when read at time 600, even though `created_at` is recent relative to
the 24-hour lifetime. -/
theorem state_get_dual_expiry_witness :
    (get_state demoStaleStore 600 "u1").1 = none
    ∧ ((get_state demoStaleStore 600 "u1").2).store "u1" = none :=
  state_get_dual_expiry demoStaleStore 600 "u1" demoStaleState rfl
    (Or.inr (Or.inr (Or.inl ⟨0, rfl, by norm_num [STATE_TIMEOUT_SECONDS]⟩)))

/-! ## C7 — short queries and swallowed geocoding failures -/

/-- C7: a raw query shorter than 2 characters makes `search_place` (and
hence `resolve_place`) return the empty result without issuing the upstream
call; and whenever the upstream fetch fails, the failure is swallowed into
"no results" — `search_place` returns the empty list and `resolve_place`
returns absent, never an exception. -/
theorem geocode_short_query_and_swallowed_failure
    (q : List Char) (o : ℕ → Except String GeoResponse) :
    (∀ count lang, q.length < 2 →
       search_place q o count lang = ([], false)
       ∧ resolve_place q o lang = (none, false))
    ∧ (∀ e, (fetch_json_with_retry o GEO_RETRIES GEO_BACKOFF).1 = .error e →
       ∀ count lang, (search_place q o count lang).1 = []
         ∧ (resolve_place q o lang).1 = none) := by
  constructor
  · intro count lang hshort
    have hq : (stripChars q).length < 2 :=
      lt_of_le_of_lt (stripChars_length_le q) hshort
    constructor
    · simp [search_place, hq]
    · simp [resolve_place, search_place, hq]
  · intro e herr count lang
    by_cases hq : (stripChars q).length < 2
    · constructor
      · simp [search_place, hq]
      · simp [resolve_place, search_place, hq]
    · constructor
      · simp [search_place, hq, herr]
      · simp [resolve_place, search_place, hq, herr]

/-- Witness for C7: the one-character query `"x"` resolves to absent with no
network call, and a query whose upstream attempts all fail resolves to
absent. -/
theorem geocode_short_query_and_swallowed_failure_witness :
    (search_place ['x'] lateGeoOracle 5 "ja" = ([], false)
      ∧ resolve_place ['x'] lateGeoOracle "ja" = (none, false))
    ∧ ((search_place ['x', 'y'] lateGeoOracle 5 "ja").1 = []
      ∧ (resolve_place ['x', 'y'] lateGeoOracle "ja").1 = none) :=
  ⟨(geocode_short_query_and_swallowed_failure ['x'] lateGeoOracle).1 5 "ja"
     (by norm_num),
   (geocode_short_query_and_swallowed_failure ['x', 'y'] lateGeoOracle).2
     "boom" rfl 5 "ja"⟩

/-! ## C10 — resolved places always carry defaulted fields -/

/-- C10: whenever `resolve_place` returns a place, that place was built from
the first upstream result with every omission defaulted — a missing name,
admin-region or country becomes `""`, missing coordinates become `0`, and a
missing timezone becomes `"UTC"` — so a resolved place never lacks a
timezone. -/
theorem resolver_fields_defaulted (q : List Char)
    (o : ℕ → Except String GeoResponse) (lang : String) (pl : ResolvedPlace)
    (h : (resolve_place q o lang).1 = some pl) :
    ∃ resp r rest,
      (fetch_json_with_retry o GEO_RETRIES GEO_BACKOFF).1 = .ok resp
      ∧ resp.results.getD [] = r :: rest
      ∧ pl.name = r.name.getD ""
      ∧ pl.lat = r.latitude.getD 0
      ∧ pl.lon = r.longitude.getD 0
      ∧ pl.timezone = r.timezone.getD "UTC"
      ∧ pl.display_name = displayNameOf (normalizeResult r) := by
  by_cases hq : (stripChars q).length < 2
  · unfold resolve_place search_place at h
    simp [hq] at h
  · cases hf : (fetch_json_with_retry o GEO_RETRIES GEO_BACKOFF).1 with
    | error e =>
      unfold resolve_place search_place at h
      rw [if_neg hq, hf] at h
      simp at h
    | ok resp =>
      have hsp : search_place q o 1 lang
          = ((resp.results.getD []).map normalizeResult, true) := by
        unfold search_place
        rw [if_neg hq, hf]
      unfold resolve_place at h
      rw [hsp] at h
      cases hr : resp.results.getD [] with
      | nil => rw [hr] at h; simp at h
      | cons r rest =>
        rw [hr] at h
        simp only [List.map_cons] at h
        refine ⟨resp, r, rest, rfl, hr, ?_⟩
        simp only [Option.some_inj] at h
        subst h
        exact ⟨rfl, rfl, rfl, rfl, rfl⟩

/-- Witness for C10: an upstream record whose timezone, coordinates and most
names are omitted resolves to a place with `"UTC"`, zero coordinates and
empty strings. -/
theorem resolver_fields_defaulted_witness :
    ∃ resp r rest,
      (fetch_json_with_retry demoGeoOracle GEO_RETRIES GEO_BACKOFF).1 = .ok resp
      ∧ resp.results.getD [] = r :: rest
      ∧ demoResolved.name = r.name.getD ""
      ∧ demoResolved.lat = r.latitude.getD 0
      ∧ demoResolved.lon = r.longitude.getD 0
      ∧ demoResolved.timezone = r.timezone.getD "UTC"
      ∧ demoResolved.display_name = displayNameOf (normalizeResult r) :=
  resolver_fields_defaulted ['a', 'b'] demoGeoOracle "ja" demoResolved rfl

/-! ## C3 — weather cache hit within the TTL -/

/-- A successful pass through the miss path leaves the computed triple in
the cache under its key, stamped with the call's monotonic time. -/
theorem weatherFetchPath_ok {ck : CacheKey} {td : ℤ} {hl : String} {t : ℚ}
    {wc : WeatherCache} {o : ℕ → Except String HourlyData}
    {r : WeatherResult} {wc2 : WeatherCache} {b : Bool}
    (h : weatherFetchPath ck td hl t wc o = .ok (r, wc2, b)) :
    wc2.cache ck = some r ∧ wc2.timeAt ck = some t ∧ b = true := by
  unfold weatherFetchPath at h
  cases hf : (fetch_json_with_retry o WEATHER_RETRIES WEATHER_BACKOFF).1 with
  | error e =>
    rw [hf] at h
    simp [Bind.bind, Except.bind] at h
  | ok data =>
    rw [hf] at h
    simp only [Bind.bind, Except.bind] at h
    cases hb : buildForecasts data td [9, 12, 15, 18, 21] with
    | error e =>
      rw [hb] at h
      simp at h
    | ok fs =>
      rw [hb] at h
      simp only [Bind.bind, Except.bind, pure, Except.pure, Except.ok.injEq,
        Prod.mk.injEq] at h
      obtain ⟨hr, hwc, hbtrue⟩ := h
      subst hr
      rw [← hwc]
      exact ⟨by simp, by simp, hbtrue.symm⟩

/-- C3: when a weather lookup stores its result (an upstream call was made)
and a second lookup with the same cache key — equal rounded coordinates,
zone string and target date — runs less than `WEATHER_CACHE_TTL_SECONDS`
after it, the second lookup returns the identical cached triple, leaves the
cache untouched and issues no upstream call. -/
theorem weather_cache_hit
    (lat1 lon1 lat2 lon2 : ℚ) (tz1 tz2 : String) (d1 h1 d2 h2 : ℤ)
    (t1 t2 : ℚ) (wc wc1 : WeatherCache) (o1 o2 : ℕ → Except String HourlyData)
    (r1 : WeatherResult)
    (hfirst : get_tomorrow_weather_9_to_21 lat1 lon1 tz1 d1 h1 t1 wc o1
      = .ok (r1, wc1, true))
    (hkey : (⟨round4 lat1, round4 lon1, tz1, (target_date_and_header d1 h1).1⟩ : CacheKey)
      = ⟨round4 lat2, round4 lon2, tz2, (target_date_and_header d2 h2).1⟩)
    (httl : t2 - t1 < WEATHER_CACHE_TTL_SECONDS) :
    get_tomorrow_weather_9_to_21 lat2 lon2 tz2 d2 h2 t2 wc1 o2
      = .ok (r1, wc1, false) := by
  have hstored : wc1.cache ⟨round4 lat1, round4 lon1, tz1, (target_date_and_header d1 h1).1⟩
        = some r1
      ∧ wc1.timeAt ⟨round4 lat1, round4 lon1, tz1, (target_date_and_header d1 h1).1⟩
        = some t1 := by
    unfold get_tomorrow_weather_9_to_21 at hfirst
    dsimp only [] at hfirst
    cases hc : wc.cache ⟨round4 lat1, round4 lon1, tz1, (target_date_and_header d1 h1).1⟩ with
    | some cached =>
      rw [hc] at hfirst
      by_cases hfresh : t1 - (wc.timeAt ⟨round4 lat1, round4 lon1, tz1,
          (target_date_and_header d1 h1).1⟩).getD 0 < WEATHER_CACHE_TTL_SECONDS
      · simp only [hfresh, if_true] at hfirst
        simp at hfirst
      · simp only [hfresh, if_false] at hfirst
        obtain ⟨ha, hb, _⟩ := weatherFetchPath_ok hfirst
        exact ⟨ha, hb⟩
    | none =>
      rw [hc] at hfirst
      obtain ⟨ha, hb, _⟩ := weatherFetchPath_ok hfirst
      exact ⟨ha, hb⟩
  unfold get_tomorrow_weather_9_to_21
  dsimp only []
  rw [← hkey, hstored.1, hstored.2]
  simp only [Option.getD_some]
  rw [if_pos httl]

/-- Witness for C3: a first lookup at monotonic time 0 over an empty cache
stores its triple; a second lookup 100 seconds later with the same key
returns it unchanged with no upstream call, although its own oracle would
fail. -/
theorem weather_cache_hit_witness :
    get_tomorrow_weather_9_to_21 35 139 "Asia/Tokyo" 19000 9 100 demoWC1
      failingHourlyOracle = .ok (demoWeatherResult, demoWC1, false) :=
  weather_cache_hit 35 139 35 139 "Asia/Tokyo" "Asia/Tokyo" 19000 9 19000 9
    0 100 demoEmptyWC demoWC1 demoHourlyOracle failingHourlyOracle
    demoWeatherResult rfl rfl (by norm_num [WEATHER_CACHE_TTL_SECONDS])

/-! ## C4 — retry policy of the shared fetch helper -/

/-- The retry loop only consults the oracle on the attempts it has fuel
for. -/
theorem retryFrom_congr {α : Type} (o o2 : ℕ → Except String α) (b : ℚ) :
    ∀ (fuel start : ℕ) (lastErr : String),
      (∀ j, start ≤ j → j < start + fuel → o j = o2 j) →
      retryFrom o b lastErr fuel start = retryFrom o2 b lastErr fuel start := by
  intro fuel
  induction fuel with
  | zero => intro start lastErr _; rfl
  | succ n ih =>
    intro start lastErr h
    have h0 : o start = o2 start := h start (le_refl _) (by omega)
    simp only [retryFrom]
    rw [← h0]
    cases ho : o start with
    | ok v => rfl
    | error e =>
      dsimp only []
      rw [ih (start + 1) e (fun j hj1 hj2 => h j (by omega) (by omega))]

/-- When every attempt in the loop's window fails, the loop raises the last
observed error and sleeps once per failed attempt, by the wait formula. -/
theorem retryFrom_all_fail {α : Type} (o : ℕ → Except String α) (b : ℚ) :
    ∀ (fuel start : ℕ) (lastErr : String), 1 ≤ fuel →
      (∀ j, start ≤ j → j < start + fuel → ∃ e, o j = Except.error e) →
      retryFrom o b lastErr fuel start
        = (Except.error (errTextOf (o (start + fuel - 1))),
           (List.range fuel).map
             fun i => retryWait b (start + i) (errTextOf (o (start + i)))) := by
  intro fuel
  induction fuel with
  | zero => intro start lastErr h1 _; exact absurd h1 (by omega)
  | succ n ih =>
    intro start lastErr _ hfail
    obtain ⟨e, he⟩ := hfail start (le_refl _) (by omega)
    simp only [retryFrom]
    rw [he]
    dsimp only []
    cases Nat.eq_zero_or_pos n with
    | inl hz =>
      subst hz
      simp only [retryFrom]
      simp [errTextOf, he, List.range_succ]
    | inr hpos =>
      rw [ih (start + 1) e hpos (fun j hj1 hj2 => hfail j (by omega) (by omega))]
      refine congrArg₂ Prod.mk ?_ ?_
      · rw [show start + 1 + n - 1 = start + (n + 1) - 1 by omega]
      · rw [List.range_succ_eq_map, List.map_cons, List.map_map]
        refine congrArg₂ List.cons ?_ ?_
        · simp [errTextOf, he]
        · have hc : ((fun i => retryWait b (start + i) (errTextOf (o (start + i))))
              ∘ Nat.succ)
              = fun i => retryWait b (start + 1 + i) (errTextOf (o (start + 1 + i))) := by
            funext i
            simp only [Function.comp]
            rw [show start + (i + 1) = start + 1 + i by omega]
          rw [hc]

/-- C4 (amended): the shared helper, run with `retries` attempts, raises the
last observed error on exhaustion after waiting `backoff ** (attempt-1)`
seconds per failed attempt — floored at 60 seconds when the error text
contains `"429"`; the weather call site runs it with `WEATHER_RETRIES = 3`
attempts but the geocoding call site with `GEO_RETRIES = 2`, so geocoding
results depend only on the first two attempts (and weather results only on
the first three). -/
theorem retry_policy (α : Type) :
    (∀ (o : ℕ → Except String α) (retries : ℕ) (backoff : ℚ), 1 ≤ retries →
       (∀ j, 1 ≤ j → j ≤ retries → ∃ e, o j = Except.error e) →
       (fetch_json_with_retry o retries backoff).1
         = Except.error (errTextOf (o retries))
       ∧ (fetch_json_with_retry o retries backoff).2
         = (List.range retries).map
             fun i => retryWait backoff (1 + i) (errTextOf (o (1 + i))))
    ∧ (∀ (backoff : ℚ) (k : ℕ) (e : String),
        (has429 e = true → retryWait backoff k e = max (backoff ^ (k - 1)) 60)
        ∧ (has429 e = false → retryWait backoff k e = backoff ^ (k - 1)))
    ∧ (∀ (q : List Char) (o o2 : ℕ → Except String GeoResponse)
        (count : ℕ) (lang : String),
        (∀ j, 1 ≤ j → j ≤ GEO_RETRIES → o j = o2 j) →
        search_place q o count lang = search_place q o2 count lang)
    ∧ (∀ (lat lon : ℚ) (tz : String) (d h : ℤ) (t : ℚ) (wc : WeatherCache)
        (o o2 : ℕ → Except String HourlyData),
        (∀ j, 1 ≤ j → j ≤ WEATHER_RETRIES → o j = o2 j) →
        get_tomorrow_weather_9_to_21 lat lon tz d h t wc o
          = get_tomorrow_weather_9_to_21 lat lon tz d h t wc o2) := by
  refine ⟨?_, ?_, ?_, ?_⟩
  · intro o retries backoff hret hfail
    have := retryFrom_all_fail o backoff retries 1 "" hret
      (fun j hj1 hj2 => hfail j hj1 (by omega))
    unfold fetch_json_with_retry
    rw [this]
    constructor
    · rw [show 1 + retries - 1 = retries by omega]
    · rfl
  · intro backoff k e
    constructor <;> intro h429 <;> simp [retryWait, h429]
  · intro q o o2 count lang hagree
    have hfe : fetch_json_with_retry o GEO_RETRIES GEO_BACKOFF
        = fetch_json_with_retry o2 GEO_RETRIES GEO_BACKOFF := by
      unfold fetch_json_with_retry
      exact retryFrom_congr o o2 GEO_BACKOFF GEO_RETRIES 1 ""
        (fun j hj1 hj2 => hagree j hj1 (by omega))
    unfold search_place
    rw [hfe]
  · intro lat lon tz d h t wc o o2 hagree
    have hfe : fetch_json_with_retry o WEATHER_RETRIES WEATHER_BACKOFF
        = fetch_json_with_retry o2 WEATHER_RETRIES WEATHER_BACKOFF := by
      unfold fetch_json_with_retry
      exact retryFrom_congr o o2 WEATHER_BACKOFF WEATHER_RETRIES 1 ""
        (fun j hj1 hj2 => hagree j hj1 (by omega))
    unfold get_tomorrow_weather_9_to_21 weatherFetchPath
    rw [hfe]

/-- Witness for C4: a weather fetch whose three attempts all hit rate limits
raises the third attempt's error after three floored waits; the 60-second
floor applies to a `"429"` error on attempt 2; geocoding cannot tell
`lateGeoOracle` from an always-failing oracle (it never reaches attempt 3);
the weather lookup cannot tell an always-failing oracle from one that would
succeed on attempt 4. -/
theorem retry_policy_witness :
    ((fetch_json_with_retry ratelimitOracle WEATHER_RETRIES 2).1
        = Except.error (errTextOf (ratelimitOracle WEATHER_RETRIES))
      ∧ (fetch_json_with_retry ratelimitOracle WEATHER_RETRIES 2).2
        = (List.range WEATHER_RETRIES).map
            fun i => retryWait 2 (1 + i) (errTextOf (ratelimitOracle (1 + i))))
    ∧ retryWait 2 2 "HTTP Error 429: attempt 2" = max ((2 : ℚ) ^ 1) 60
    ∧ search_place ['x', 'y'] lateGeoOracle 5 "ja"
        = search_place ['x', 'y'] allFailGeoOracle 5 "ja"
    ∧ get_tomorrow_weather_9_to_21 35 139 "Asia/Tokyo" 19000 9 0 demoEmptyWC
        failingHourlyOracle
        = get_tomorrow_weather_9_to_21 35 139 "Asia/Tokyo" 19000 9 0 demoEmptyWC
            lateHourlyOracle := by
  refine ⟨(retry_policy HourlyData).1 ratelimitOracle WEATHER_RETRIES 2
      (by norm_num [WEATHER_RETRIES]) (fun j _ _ => ⟨_, rfl⟩),
    ((retry_policy HourlyData).2.1 2 2 "HTTP Error 429: attempt 2").1 (by decide),
    (retry_policy HourlyData).2.2.1 ['x', 'y'] lateGeoOracle allFailGeoOracle 5 "ja"
      ?_,
    (retry_policy HourlyData).2.2.2 35 139 "Asia/Tokyo" 19000 9 0 demoEmptyWC
      failingHourlyOracle lateHourlyOracle ?_⟩
  · intro j hj1 hj2
    have : ¬ 3 ≤ j := by
      simp [GEO_RETRIES] at hj2
      omega
    simp [lateGeoOracle, allFailGeoOracle, this]
  · intro j hj1 hj2
    have : ¬ 4 ≤ j := by
      simp [WEATHER_RETRIES] at hj2
      omega
    simp [failingHourlyOracle, lateHourlyOracle, this]

/-- Counterexample for C4: the geocoding call site passes `retries=2`, not
3 — an upstream failing on the first two attempts and succeeding on the
third exhausts the geocoding fetch (raising `"boom"`, which `search_place`
swallows), whereas the claimed three-attempt helper call would succeed. -/
theorem geocode_two_attempts_counterexample :
    GEO_RETRIES = 2
    ∧ (fetch_json_with_retry lateGeoOracle GEO_RETRIES GEO_BACKOFF).1
        = Except.error "boom"
    ∧ (fetch_json_with_retry lateGeoOracle 3 GEO_BACKOFF).1
        = Except.ok ⟨some []⟩
    ∧ (search_place ['t', 'o', 'k', 'y', 'o'] lateGeoOracle 5 "ja").1 = [] :=
  ⟨rfl, rfl, rfl, rfl⟩

/-! ## C5 — weather-provider failure: apology and cleared state -/

/-- C5: in weather mode, when the place resolves but the weather provider
raises, the controller sends exactly one reply — the apology carrying the
error text — and clears the user's conversation state, so the user is never
left in the weather-location state and the failure is never dropped
silently. -/
theorem weather_failure_apology_and_clear
    (uid : String) (text : List Char) (env : Env) (ss : StateStore)
    (wc : WeatherCache) (st : ConvState) (place : ResolvedPlace) (e : String)
    (hmenu : ¬(normalizeText text = "メニュー" ∨ normalizeText text = "menu"
      ∨ normalizeText text = "help" ∨ normalizeText text = "ヘルプ"))
    (hstored : ss.store uid = some st)
    (hto : is_timed_out env.now st = false)
    (hexp : is_expired ss env.now st = false)
    (hmode : st.mode = some "weather")
    (hres : (resolve_place text env.geo).1 = some place)
    (hweather : get_tomorrow_weather_9_to_21 place.lat place.lon place.timezone
      env.localDate env.localHour env.now_ts wc env.hourly = .error e) :
    handle_text_message uid text env ss wc
      = .ok { replies := [[Message.text (weatherFailText e)]],
              store := clear_state ss uid, wcache := wc, mutations := 1 }
    ∧ (clear_state ss uid).store uid = none := by
  have hgs : get_state ss env.now uid = (some st, ss) := by
    unfold get_state
    rw [hstored]
    simp [hto, hexp]
  constructor
  · unfold handle_text_message
    dsimp only []
    rw [if_neg hmenu, hgs]
    dsimp only []
    rw [if_neg (by rw [hmode]; decide), if_pos hmode, hres]
    dsimp only []
    rw [hweather]
  · simp [clear_state, hstored, StateStore.erase]

/-- Witness for C5: a user in weather mode sends "ab", which resolves, the
weather upstream fails every attempt with "neterr", and the handler replies
with the apology and deletes the stored state. -/
theorem weather_failure_apology_and_clear_witness :
    handle_text_message "u1" ['a', 'b'] demoEnv demoWeatherStore demoEmptyWC
      = .ok { replies := [[Message.text (weatherFailText "neterr")]],
              store := clear_state demoWeatherStore "u1", wcache := demoEmptyWC,
              mutations := 1 }
    ∧ (clear_state demoWeatherStore "u1").store "u1" = none :=
  weather_failure_apology_and_clear "u1" ['a', 'b'] demoEnv demoWeatherStore
    demoEmptyWC demoWeatherState demoResolved "neterr"
    (by decide) rfl rfl rfl rfl rfl rfl

/-! ## C6 — tz-flow resolution failure re-prompts and preserves state -/

/-- C6: for a user in either tz-flow step, a text whose place resolution
fails produces exactly the re-prompt naming the input, the store is left
completely unchanged (in particular the state re-reads with the same `mode`,
`step` and `from_place`), and no mutation is performed. -/
theorem tz_reprompt_leaves_state_unchanged
    (uid : String) (text : List Char) (env : Env) (ss : StateStore)
    (wc : WeatherCache) (st : ConvState)
    (hmenu : ¬(normalizeText text = "メニュー" ∨ normalizeText text = "menu"
      ∨ normalizeText text = "help" ∨ normalizeText text = "ヘルプ"))
    (hstored : ss.store uid = some st)
    (hto : is_timed_out env.now st = false)
    (hexp : is_expired ss env.now st = false)
    (hmode : st.mode = some "tz")
    (hstep : st.step = some "from" ∨ st.step = some "to")
    (hres : (resolve_place text env.geo).1 = none) :
    handle_text_message uid text env ss wc
      = .ok { replies := [[Message.text (placeNotFoundTzText text)]],
              store := ss, wcache := wc, mutations := 0 }
    ∧ (get_state ss env.now uid).1 = some st := by
  have hgs : get_state ss env.now uid = (some st, ss) := by
    unfold get_state
    rw [hstored]
    simp [hto, hexp]
  refine ⟨?_, by rw [hgs]⟩
  unfold handle_text_message
  dsimp only []
  rw [if_neg hmenu, hgs]
  dsimp only []
  rw [if_pos hmode]
  cases hstep with
  | inl hfrom =>
    rw [if_pos hfrom, hres]
  | inr hto2 =>
    rw [if_neg (by rw [hto2]; decide), if_pos hto2, hres]

/-- Witness for C6: a user awaiting the destination place sends the
one-character "z", which cannot resolve; the reply names it and the stored
state re-reads unchanged. -/
theorem tz_reprompt_leaves_state_unchanged_witness :
    handle_text_message "u1" ['z'] demoEnv demoTzStore demoEmptyWC
      = .ok { replies := [[Message.text (placeNotFoundTzText ['z'])]],
              store := demoTzStore, wcache := demoEmptyWC, mutations := 0 }
    ∧ (get_state demoTzStore 0 "u1").1 = some demoTzToState :=
  tz_reprompt_leaves_state_unchanged "u1" ['z'] demoEnv demoTzStore demoEmptyWC
    demoTzToState (by decide) rfl rfl rfl rfl (Or.inr rfl) rfl

/-! ## C1 — one reply per inbound event -/

/-- Deleting an entry preserves well-formedness of the stored states. -/
theorem StoreWF_erase {ss : StateStore} {uid : String} (h : StoreWF ss) :
    StoreWF (ss.erase uid) := by
  intro u st hu
  simp only [StateStore.erase] at hu
  by_cases he : u = uid
  · rw [if_pos he] at hu
    exact absurd hu (by simp)
  · rw [if_neg he] at hu
    exact h u st hu

/-- Inserting a well-formed state preserves well-formedness. -/
theorem StoreWF_insert {ss : StateStore} {uid : String} {st0 : ConvState}
    (h : StoreWF ss) (hwf : WFState st0) : StoreWF (ss.insert uid st0) := by
  intro u st hu
  simp only [StateStore.insert] at hu
  by_cases he : u = uid
  · rw [if_pos he] at hu
    cases hu
    exact hwf
  · rw [if_neg he] at hu
    exact h u st hu

/-- `clear_state` preserves well-formedness. -/
theorem StoreWF_clear {ss : StateStore} {uid : String} (h : StoreWF ss) :
    StoreWF (clear_state ss uid) := by
  unfold clear_state
  by_cases hs : (ss.store uid).isSome = true
  · rw [if_pos hs]
    exact StoreWF_erase h
  · rw [if_neg hs]
    exact h

/-- The store left behind by `get_state` is still well-formed. -/
theorem StoreWF_get_snd {ss : StateStore} {now : ℤ} {uid : String}
    (h : StoreWF ss) : StoreWF ((get_state ss now uid).2) := by
  unfold get_state
  cases hs : ss.store uid with
  | none => exact h
  | some st =>
    by_cases ht : is_timed_out now st = true
    · simp only [ht, if_true]
      exact StoreWF_erase h
    · by_cases he : is_expired ss now st = true
      · simp only [ht, if_false, he, if_true]
        exact StoreWF_erase h
      · simp only [ht, if_false, he]
        exact h

/-- When `get_state` hands out a state it leaves the store untouched. -/
theorem get_state_some_snd {ss : StateStore} {now : ℤ} {uid : String}
    {st : ConvState} (h : (get_state ss now uid).1 = some st) :
    (get_state ss now uid).2 = ss := by
  unfold get_state at h ⊢
  cases hs : ss.store uid with
  | none => rfl
  | some st0 =>
    rw [hs] at h
    dsimp only [] at h ⊢
    by_cases ht : is_timed_out now st0 = true
    · simp [ht] at h
    · by_cases he : is_expired ss now st0 = true
      · simp [ht, he] at h
      · simp [ht, he]

/-- C1 (amended): under stores holding only controller-made states, every
text event and every location event produces exactly one reply and at most
one handler-level state mutation; a postback whose data is a recognized mode
selection produces exactly one reply and exactly one state mutation, and a
postback with any other data produces zero replies and zero mutations; no
branch replies more than once, and every handler leaves the store
well-formed again. -/
theorem controller_one_reply (uid : String) (text : List Char)
    (latitude longitude : ℚ) (data : String) (env : Env) (ss : StateStore)
    (wc : WeatherCache) (hwf : StoreWF ss) :
    (∃ r, handle_text_message uid text env ss wc = .ok r
       ∧ r.replies.length = 1 ∧ r.mutations ≤ 1 ∧ StoreWF r.store)
    ∧ ((handle_location_message uid latitude longitude env ss wc).replies.length = 1
       ∧ (handle_location_message uid latitude longitude env ss wc).mutations ≤ 1
       ∧ StoreWF (handle_location_message uid latitude longitude env ss wc).store)
    ∧ ((handle_postback uid data env ss wc).replies.length ≤ 1
       ∧ (handle_postback uid data env ss wc).mutations ≤ 1
       ∧ StoreWF (handle_postback uid data env ss wc).store)
    ∧ ((data = "mode=tz" ∨ data = "mode=weather") →
       (handle_postback uid data env ss wc).replies.length = 1
       ∧ (handle_postback uid data env ss wc).mutations = 1)
    ∧ (¬(data = "mode=tz" ∨ data = "mode=weather") →
       (handle_postback uid data env ss wc).replies = []
       ∧ (handle_postback uid data env ss wc).mutations = 0) := by
  refine ⟨?_, ?_, ?_, ?_, ?_⟩
  · by_cases hm : normalizeText text = "メニュー" ∨ normalizeText text = "menu"
        ∨ normalizeText text = "help" ∨ normalizeText text = "ヘルプ"
    · refine ⟨handle_menu_command uid ss wc, ?_, rfl, le_refl _, StoreWF_clear hwf⟩
      unfold handle_text_message
      dsimp only []
      rw [if_pos hm]
    · unfold handle_text_message
      dsimp only []
      rw [if_neg hm]
      cases hgs : get_state ss env.now uid with
      | mk os ss1 =>
        have hss1 : StoreWF ss1 := by
          have h2 := @StoreWF_get_snd ss env.now uid hwf
          rw [hgs] at h2
          exact h2
        cases os with
        | none =>
          exact ⟨_, rfl, rfl, le_refl _, StoreWF_clear hss1⟩
        | some state =>
          have hstored : ss.store uid = some state := get_state_some (by rw [hgs])
          have hss1eq : ss1 = ss := by
            have h2 := @get_state_some_snd ss env.now uid state (by rw [hgs])
            rw [hgs] at h2
            exact h2
          subst hss1eq
          have hwfst : WFState state := hwf uid state hstored
          dsimp only []
          rcases hwfst with ⟨hmode, hstep⟩ | ⟨hmode, hstep, hfp⟩ | ⟨hmode, hstep⟩
          · rw [if_pos hmode, if_pos hstep]
            cases hres : (resolve_place text env.geo).1 with
            | none =>
              dsimp only []
              exact ⟨_, rfl, rfl, by norm_num, hwf⟩
            | some place =>
              dsimp only []
              refine ⟨_, rfl, rfl, le_refl _, ?_⟩
              unfold update_state
              rw [hgs]
              dsimp only []
              apply StoreWF_insert hwf
              split
              · exact Or.inr (Or.inl ⟨hmode, rfl, Option.some_ne_none place⟩)
              · exact Or.inr (Or.inl ⟨hmode, rfl, Option.some_ne_none place⟩)
          · rw [if_pos hmode, if_neg (by rw [hstep]; decide), if_pos hstep]
            cases hres : (resolve_place text env.geo).1 with
            | none =>
              dsimp only []
              exact ⟨_, rfl, rfl, by norm_num, hwf⟩
            | some place =>
              obtain ⟨fp, hfpe⟩ := Option.ne_none_iff_exists'.mp hfp
              dsimp only []
              rw [hfpe]
              dsimp only []
              exact ⟨_, rfl, rfl, le_refl _, StoreWF_clear hwf⟩
          · rw [if_neg (by rw [hmode]; decide), if_pos hmode]
            cases hres : (resolve_place text env.geo).1 with
            | none =>
              dsimp only []
              exact ⟨_, rfl, rfl, by norm_num, hwf⟩
            | some place =>
              dsimp only []
              cases hW : get_tomorrow_weather_9_to_21 place.lat place.lon
                  place.timezone env.localDate env.localHour env.now_ts wc
                  env.hourly with
              | ok val =>
                obtain ⟨wr, wc2, b⟩ := val
                dsimp only []
                exact ⟨_, rfl, rfl, le_refl _, StoreWF_clear hwf⟩
              | error e =>
                dsimp only []
                exact ⟨_, rfl, rfl, le_refl _, StoreWF_clear hwf⟩
  · unfold handle_location_message
    cases hgs : get_state ss env.now uid with
    | mk os ss1 =>
      have hss1 : StoreWF ss1 := by
        have h2 := @StoreWF_get_snd ss env.now uid hwf
        rw [hgs] at h2
        exact h2
      cases os with
      | none => exact ⟨rfl, le_refl _, StoreWF_clear hss1⟩
      | some state =>
        dsimp only []
        by_cases hm : state.mode ≠ some "weather"
        · rw [if_pos hm]
          exact ⟨rfl, le_refl _, StoreWF_clear hss1⟩
        · rw [if_neg hm]
          cases hW : get_tomorrow_weather_9_to_21 latitude longitude "Asia/Tokyo"
              env.localDate env.localHour env.now_ts wc env.hourly with
          | ok val =>
            obtain ⟨wr, wc2, b⟩ := val
            dsimp only []
            exact ⟨rfl, le_refl _, StoreWF_clear hss1⟩
          | error e =>
            dsimp only []
            exact ⟨rfl, le_refl _, StoreWF_clear hss1⟩
  · unfold handle_postback
    by_cases h1 : data = "mode=tz"
    · rw [if_pos h1]
      refine ⟨by norm_num, le_refl _, ?_⟩
      unfold set_state
      exact StoreWF_insert hwf (Or.inl ⟨rfl, rfl⟩)
    · rw [if_neg h1]
      by_cases h2 : data = "mode=weather"
      · rw [if_pos h2]
        refine ⟨by norm_num, le_refl _, ?_⟩
        unfold set_state
        exact StoreWF_insert hwf (Or.inr (Or.inr ⟨rfl, rfl⟩))
      · rw [if_neg h2]
        exact ⟨by norm_num, by norm_num, hwf⟩
  · intro hd
    unfold handle_postback
    cases hd with
    | inl h1 =>
      rw [if_pos h1]
      exact ⟨rfl, rfl⟩
    | inr h2 =>
      rw [if_neg (by rw [h2]; decide), if_pos h2]
      exact ⟨rfl, rfl⟩
  · intro hd
    push_neg at hd
    unfold handle_postback
    rw [if_neg hd.1, if_neg hd.2]
    exact ⟨rfl, rfl⟩

/-- Witness for C1 (amended): concrete events against the empty store — a
"hi" text, a shared location, the tz-mode postback (one reply, one
mutation), and a postback with the unrecognized data "mode=x" (no reply, no
mutation). -/
theorem controller_one_reply_witness :
    (∃ r, handle_text_message "u1" ['h', 'i'] demoEnv demoEmptyStore demoEmptyWC
        = .ok r ∧ r.replies.length = 1 ∧ r.mutations ≤ 1 ∧ StoreWF r.store)
    ∧ ((handle_location_message "u1" 35 139 demoEnv demoEmptyStore
          demoEmptyWC).replies.length = 1)
    ∧ ((handle_postback "u1" "mode=tz" demoEnv demoEmptyStore
          demoEmptyWC).replies.length = 1
       ∧ (handle_postback "u1" "mode=tz" demoEnv demoEmptyStore
            demoEmptyWC).mutations = 1)
    ∧ ((handle_postback "u1" "mode=x" demoEnv demoEmptyStore
          demoEmptyWC).replies = []
       ∧ (handle_postback "u1" "mode=x" demoEnv demoEmptyStore
            demoEmptyWC).mutations = 0) :=
  ⟨(controller_one_reply "u1" ['h', 'i'] 35 139 "mode=tz" demoEnv demoEmptyStore
      demoEmptyWC (fun u st h => Option.noConfusion h)).1,
   (controller_one_reply "u1" ['h', 'i'] 35 139 "mode=tz" demoEnv demoEmptyStore
      demoEmptyWC (fun u st h => Option.noConfusion h)).2.1.1,
   (controller_one_reply "u1" ['h', 'i'] 35 139 "mode=tz" demoEnv demoEmptyStore
      demoEmptyWC (fun u st h => Option.noConfusion h)).2.2.2.1 (Or.inl rfl),
   (controller_one_reply "u1" ['h', 'i'] 35 139 "mode=x" demoEnv demoEmptyStore
      demoEmptyWC (fun u st h => Option.noConfusion h)).2.2.2.2 (by decide)⟩

/-- Counterexample for C1: a postback whose data is not a recognized mode
selection reaches the dialogue controller and produces zero outbound
replies, not exactly one. -/
theorem unknown_postback_no_reply_counterexample :
    (handle_postback "u1" "mode=unknown" demoEnv demoEmptyStore
        demoEmptyWC).replies = []
    ∧ (handle_postback "u1" "mode=unknown" demoEnv demoEmptyStore
        demoEmptyWC).mutations = 0 :=
  ⟨rfl, rfl⟩



end DailyReport
